import Mathlib

/-!
Verification of the `BitcoinRPC` facade (src/src/rpc/BitcoinRPC.ts).

The class is a thin typed client over an external JSON-RPC transport.  We
embed it shallowly:

* runtime JavaScript values are `JsVal` (the TypeScript casts in the source
  are runtime no-ops, so every transport response is just a JSON-ish value);
* the mutable fields of the class (`rpc`, `blockchainInfo`,
  `currentBlockInfo`, the purge interval flag, and the constructor
  parameters) form `RPCState`;
* the external transport is abstracted by its response: every method takes
  a `TransportResp` oracle argument (`Except JsErr JsVal`) describing what
  the one transport call it makes would do;
* a method invocation produces a `MethodResult`: the new state, the
  outcome (resolve / reject / process exit), whether the transport was
  actually invoked, the first-argument parameter object sent to the
  transport (when the source builds one), and the messages passed to
  `this.error` during the call.  The `error` override only emits when
  `enableDebug` is set; `emittedErrors` applies that gate.

The optional `wallet` routing argument that some methods forward as a
second transport argument, and the `debugMessage` trace channel, play no
role in any claim and are not modelled.
-/

namespace BitcoinRPC

/-- Runtime JavaScript values (numbers modelled as integers; no claim
depends on float behaviour). -/
inductive JsVal where
  | vnull
  | vundefined
  | vbool (b : Bool)
  | vnum (n : Int)
  | vstr (s : String)
  | varr (xs : List JsVal)
  | vobj (fields : List (String × JsVal))

/-- JavaScript truthiness: `null`, `undefined`, `false`, `0` and `''` are
falsy; every other value (including empty arrays and objects) is truthy. -/
def truthy : JsVal → Bool
  | .vnull => false
  | .vundefined => false
  | .vbool b => b
  | .vnum n => decide (n ≠ 0)
  | .vstr s => decide (s ≠ "")
  | .varr _ => true
  | .vobj _ => true

/-- The expression `v || null`. -/
def jsOrNull (v : JsVal) : JsVal :=
  match truthy v with
  | true => v
  | false => .vnull

/-- The expression `v ?? null` (nullish coalescing). -/
def jsNullishNull (v : JsVal) : JsVal :=
  match v with
  | .vnull => .vnull
  | .vundefined => .vnull
  | v => v

/-- JavaScript loose equality against the empty string, used by
`getBlockAsHexString` (`blockData == ''`). -/
def looseEqEmptyStr : JsVal → Bool
  | .vstr "" => true
  | .vnum 0 => true
  | .vbool false => true
  | .varr [] => true
  | _ => false

/-- Object field lookup; a missing field (or a non-object receiver) reads
as `undefined`. -/
def getField (v : JsVal) (k : String) : JsVal :=
  match v with
  | .vobj fields =>
    match fields.lookup k with
    | some w => w
    | none => .vundefined
  | _ => .vundefined

/-- Whether an object value carries a field of the given name. -/
def hasField (v : JsVal) (k : String) : Bool :=
  match v with
  | .vobj fields => (fields.lookup k).isSome
  | _ => false

/-- A thrown JavaScript value: either an `Error` object constructed from a
message, or an arbitrary rejection value from the transport. -/
inductive JsErr where
  | errorObj (msg : String)
  | raw (v : JsVal)

/-- Rough value stringification, enough for the interpolated log
messages. -/
def jsValStr : JsVal → String
  | .vnull => "null"
  | .vundefined => "undefined"
  | .vbool true => "true"
  | .vbool false => "false"
  | .vnum n => toString n
  | .vstr s => s
  | .varr _ => "[array]"
  | .vobj _ => "[object Object]"

/-- Template interpolation of a caught value (an `Error` stringifies to
`Error: msg`). -/
def errStr : JsErr → String
  | .errorObj m => "Error: " ++ m
  | .raw v => jsValStr v

/-- The `.message` property of a caught value. -/
def errMessage : JsErr → String
  | .errorObj m => m
  | .raw v => jsValStr (getField v "message")

/-- What one transport call would do: resolve with a value or reject. -/
def TransportResp : Type := Except JsErr JsVal

/-- Connection options handed to the external `RPCClient` constructor
(`RPCIniOptions` of the external transport library, fields as used in
`getRpcConfigFromBlockchainConfig`). -/
structure RPCIniOptions where
  url : String
  port : Int
  user : String
  pass : String

/-- The external transport client, represented by the options it was
constructed from. -/
structure RPCClient where
  opts : RPCIniOptions

/-- Connection configuration (`RPCConfig`); the interface file is not in
scope, its fields are exactly the ones `getRpcConfigFromBlockchainConfig`
reads. -/
structure RPCConfig where
  BITCOIND_HOST : String
  BITCOIND_PORT : Int
  BITCOIND_USERNAME : String
  BITCOIND_PASSWORD : String

/-- `BitcoinVerbosity` (type file not in scope; the two members used by
the source, `RAW` and `NONE`, with the numeric wire values implied by
`getBlockAsHexString` / `getBlockInfoOnly`). -/
inductive BitcoinVerbosity where
  | NONE
  | RAW
deriving DecidableEq

/-- Wire value of a `BitcoinVerbosity` member. -/
def verbosityVal : BitcoinVerbosity → JsVal
  | .NONE => .vnum 0
  | .RAW => .vnum 1

/-- `FeeEstimation` (type file not in scope; members per the estimate-mode
strings of the RPC interface). -/
inductive FeeEstimation where
  | UNSET
  | ECONOMICAL
  | CONSERVATIVE
deriving DecidableEq

/-- Wire value of a `FeeEstimation` member. -/
def feeEstimationVal : FeeEstimation → JsVal
  | .UNSET => .vstr "UNSET"
  | .ECONOMICAL => .vstr "ECONOMICAL"
  | .CONSERVATIVE => .vstr "CONSERVATIVE"

/-- `BitcoinRawTransactionParams` (type file not in scope; fields as read
by `getRawTransaction`). -/
structure BitcoinRawTransactionParams where
  txId : String
  verbose : Option BitcoinVerbosity
  blockHash : Option String

/-- Mutable state of a `BitcoinRPC` instance: the constructor parameters
and the four instance fields (`purgeInterval` reduced to whether the purge
timer is armed). -/
structure RPCState where
  cacheClearInterval : Int
  enableDebug : Bool
  rpc : Option RPCClient
  blockchainInfo : JsVal
  currentBlockInfo : JsVal
  purgeIntervalArmed : Bool

/-- Default value of the constructor's `cacheClearInterval` parameter. -/
def defaultCacheClearInterval : Int := 1000

/-- Default value of the constructor's `enableDebug` parameter. -/
def defaultEnableDebug : Bool := false

/-- The constructor: fields start `null`, and `purgeCachedData()` arms the
periodic purge timer. -/
def mkBitcoinRPC (cacheClearInterval : Int) (enableDebug : Bool) : RPCState :=
  { cacheClearInterval := cacheClearInterval
    enableDebug := enableDebug
    rpc := none
    blockchainInfo := .vnull
    currentBlockInfo := .vnull
    purgeIntervalArmed := true }

/-- Construction with both defaulted parameters. -/
def mkBitcoinRPCDefault : RPCState :=
  mkBitcoinRPC defaultCacheClearInterval defaultEnableDebug

/-- One firing of the interval registered by `purgeCachedData`: both
cached values are reset to `null`. -/
def purgeTick (s : RPCState) : RPCState :=
  { s with blockchainInfo := .vnull, currentBlockInfo := .vnull }

/-- `destroy()`: clears the purge interval and nulls the transport handle
and both cached values. -/
def destroy (s : RPCState) : RPCState :=
  { s with purgeIntervalArmed := false
           rpc := none
           blockchainInfo := .vnull
           currentBlockInfo := .vnull }

/-- `getRpcConfigFromBlockchainConfig`: the transport options derived from
the blockchain configuration; the host is prefixed with `http://`. -/
def getRpcConfigFromBlockchainConfig (rpcInfo : RPCConfig) : RPCIniOptions :=
  { url := "http://" ++ rpcInfo.BITCOIND_HOST
    port := rpcInfo.BITCOIND_PORT
    user := rpcInfo.BITCOIND_USERNAME
    pass := rpcInfo.BITCOIND_PASSWORD }

/-- How a method invocation ends: resolve with a value, reject with a
thrown value, or terminate the process. -/
inductive Outcome where
  | ret (v : JsVal)
  | thrown (e : JsErr)
  | exited (code : Int)

/-- Result of running one method: new state, outcome, whether the
transport was invoked, the parameter object passed to the transport (when
the source builds one), and the messages passed to `this.error`. -/
structure MethodResult where
  state : RPCState
  outcome : Outcome
  transportCalled : Bool
  sentParams : Option JsVal
  errors : List String

/-- The messages actually emitted by the `error` override, which forwards
to the logger only when `enableDebug` is set. -/
def emittedErrors (r : MethodResult) : List String :=
  match r.state.enableDebug with
  | true => r.errors
  | false => []

/-- The `if (!this.rpc) throw new Error('RPC not initialized')` guard that
opens every method: reject before any transport interaction. -/
def notInitialized (s : RPCState) : MethodResult :=
  { state := s
    outcome := .thrown (.errorObj "RPC not initialized")
    transportCalled := false
    sentParams := none
    errors := [] }

/-- Per-method handling of a transport rejection, as written in each
method's `.catch` handler (or its absence). -/
inductive CatchPolicy where
  | swallow (msgHead : String) (catchVal : JsVal)
  | logRethrow (msgHead : String)
  | rethrowSilent
  | nocatch

/-- One transport call followed by the method's `.catch` policy and the
normalization the method applies to the settled value before returning. -/
def transportCall (s : RPCState) (ps : Option JsVal) (pol : CatchPolicy)
    (norm : JsVal → JsVal) (resp : TransportResp) : MethodResult :=
  match resp with
  | .ok v =>
    { state := s
      outcome := .ret (norm v)
      transportCalled := true
      sentParams := ps
      errors := [] }
  | .error e =>
    match pol with
    | .swallow msgHead catchVal =>
      { state := s
        outcome := .ret (norm catchVal)
        transportCalled := true
        sentParams := ps
        errors := [msgHead ++ errStr e] }
    | .logRethrow msgHead =>
      { state := s
        outcome := .thrown e
        transportCalled := true
        sentParams := ps
        errors := [msgHead ++ errStr e] }
    | .rethrowSilent =>
      { state := s
        outcome := .thrown e
        transportCalled := true
        sentParams := ps
        errors := [] }
    | .nocatch =>
      { state := s
        outcome := .thrown e
        transportCalled := true
        sentParams := ps
        errors := [] }

/-- An optional value as a JavaScript field value (`undefined` when
absent). -/
def optV (f : α → JsVal) : Option α → JsVal
  | some a => f a
  | none => .vundefined

/-- `getBestBlockHash`: catch logs and returns `undefined`; result
normalized with `|| null`. -/
def getBestBlockHash (s : RPCState) (resp : TransportResp) : MethodResult :=
  if s.rpc.isNone then notInitialized s else
  transportCall s none (.swallow "Error getting best block hash: " .vundefined) jsOrNull resp

/-- `getBlockBatch`: the hash list is passed to `getblockBatch`; catch
logs and returns `null`; result normalized with `|| null`. -/
def getBlockBatch (s : RPCState) (blockHashes : List String) (resp : TransportResp) :
    MethodResult :=
  if s.rpc.isNone then notInitialized s else
  transportCall s (some (.varr (blockHashes.map .vstr)))
    (.swallow "Error getting block batch: " .vnull) jsOrNull resp

/-- `getBestBlockHeader`: params `{verbose}`; catch logs and returns
`null`; the result is returned as-is. -/
def getBestBlockHeader (s : RPCState) (verbose : Bool) (resp : TransportResp) : MethodResult :=
  if s.rpc.isNone then notInitialized s else
  transportCall s (some (.vobj [("verbose", .vbool verbose)]))
    (.swallow "Error getting best block header: " .vnull) id resp

/-- `getDeploymentInfo`: params `{blockhash}` when the argument is truthy,
else `{}`; catch logs and returns `null`. -/
def getDeploymentInfo (s : RPCState) (blockHash : Option String) (resp : TransportResp) :
    MethodResult :=
  if s.rpc.isNone then notInitialized s else
  transportCall s
    (some (match blockHash with
      | some "" => .vobj []
      | some h => .vobj [("blockhash", .vstr h)]
      | none => .vobj []))
    (.swallow "Error getting deployment info: " .vnull) id resp

/-- `getMempoolEntryById`: params `{wtxid}`; catch logs and returns
`null`. -/
def getMempoolEntryById (s : RPCState) (wtxid : String) (resp : TransportResp) : MethodResult :=
  if s.rpc.isNone then notInitialized s else
  transportCall s (some (.vobj [("wtxid", .vstr wtxid)]))
    (.swallow "Error getting mempool entry by id: " .vnull) id resp

/-- `generate`: params `{nblocks, maxtries}`; catch logs and returns
`null`. -/
def generate (s : RPCState) (nBlocks : Int) (maxTries : Option Int) (resp : TransportResp) :
    MethodResult :=
  if s.rpc.isNone then notInitialized s else
  transportCall s (some (.vobj [("nblocks", .vnum nBlocks), ("maxtries", optV .vnum maxTries)]))
    (.swallow "Error generating blocks: " .vnull) id resp

/-- `generateBlock`: params `{output, transactions, submit}`; catch logs
and returns `null`. -/
def generateBlock (s : RPCState) (output : String) (transactions : List String) (submit : Bool)
    (resp : TransportResp) : MethodResult :=
  if s.rpc.isNone then notInitialized s else
  transportCall s
    (some (.vobj [("output", .vstr output), ("transactions", .varr (transactions.map .vstr)),
      ("submit", .vbool submit)]))
    (.swallow "Error generating block: " .vnull) id resp

/-- `addPeerAddress`: params `{address, port, tried}`; catch logs and
returns `null`. -/
def addPeerAddress (s : RPCState) (address : String) (port : Int) (tried : Bool)
    (resp : TransportResp) : MethodResult :=
  if s.rpc.isNone then notInitialized s else
  transportCall s
    (some (.vobj [("address", .vstr address), ("port", .vnum port), ("tried", .vbool tried)]))
    (.swallow "Error adding peer address: " .vnull) id resp

/-- `getNodeAddresses`: params `{count}` when the count is truthy, else
`{}`; catch logs and returns `null`. -/
def getNodeAddresses (s : RPCState) (count : Option Int) (resp : TransportResp) : MethodResult :=
  if s.rpc.isNone then notInitialized s else
  transportCall s
    (some (match count with
      | some 0 => .vobj []
      | some c => .vobj [("count", .vnum c)]
      | none => .vobj []))
    (.swallow "Error getting node addresses: " .vnull) id resp

/-- `sendMsgToPeer`: params `{peer_id, msg_type, data}`; catch logs and
rethrows; resolves with `undefined` (void method). -/
def sendMsgToPeer (s : RPCState) (peerId : Int) (msgType : String) (data : String)
    (resp : TransportResp) : MethodResult :=
  if s.rpc.isNone then notInitialized s else
  transportCall s
    (some (.vobj [("peer_id", .vnum peerId), ("msg_type", .vstr msgType), ("data", .vstr data)]))
    (.logRethrow "Error sending message to peer: ") (fun _ => .vundefined) resp

/-- `submitPackage`: params `{package, maxfeerate, maxburnamount}`; catch
logs and returns `null`. -/
def submitPackage (s : RPCState) (packageTxs : List String) (maxFeeRate : Option JsVal)
    (maxBurnAmount : Option JsVal) (resp : TransportResp) : MethodResult :=
  if s.rpc.isNone then notInitialized s else
  transportCall s
    (some (.vobj [("package", .varr (packageTxs.map .vstr)), ("maxfeerate", optV id maxFeeRate),
      ("maxburnamount", optV id maxBurnAmount)]))
    (.swallow "Error submitting package: " .vnull) id resp

/-- `getIndexInfo`: params `{index_name}` when the name is truthy, else
`{}`; catch logs and returns `null`. -/
def getIndexInfo (s : RPCState) (indexName : Option String) (resp : TransportResp) :
    MethodResult :=
  if s.rpc.isNone then notInitialized s else
  transportCall s
    (some (match indexName with
      | some "" => .vobj []
      | some n => .vobj [("index_name", .vstr n)]
      | none => .vobj []))
    (.swallow "Error getting index info: " .vnull) id resp

/-- `verifyChainLock`: params `{blockhash, signature, height}`; catch logs
and returns `null`. -/
def verifyChainLock (s : RPCState) (blockHash : String) (signature : String) (height : Int)
    (resp : TransportResp) : MethodResult :=
  if s.rpc.isNone then notInitialized s else
  transportCall s
    (some (.vobj [("blockhash", .vstr blockHash), ("signature", .vstr signature),
      ("height", .vnum height)]))
    (.swallow "Error verifying chainlock: " .vnull) id resp

/-- `createWalletDescriptor`: params `{type, internal, hdkey}`; catch logs
and returns `null`. -/
def createWalletDescriptor (s : RPCState) (ty : String) (internal : Option Bool)
    (hdkey : Option String) (resp : TransportResp) : MethodResult :=
  if s.rpc.isNone then notInitialized s else
  transportCall s
    (some (.vobj [("type", .vstr ty), ("internal", optV .vbool internal),
      ("hdkey", optV .vstr hdkey)]))
    (.swallow "Error creating wallet descriptor: " .vnull) id resp

/-- `getHDKeys`: params `{active_only, private}`; catch logs and returns
`null`. -/
def getHDKeys (s : RPCState) (activeOnly : Bool) (privateKeys : Bool) (resp : TransportResp) :
    MethodResult :=
  if s.rpc.isNone then notInitialized s else
  transportCall s
    (some (.vobj [("active_only", .vbool activeOnly), ("private", .vbool privateKeys)]))
    (.swallow "Error getting HD keys: " .vnull) id resp

/-- `importDescriptors`: params `{requests}`; catch logs and returns
`null`. -/
def importDescriptors (s : RPCState) (requests : JsVal) (resp : TransportResp) : MethodResult :=
  if s.rpc.isNone then notInitialized s else
  transportCall s (some (.vobj [("requests", requests)]))
    (.swallow "Error importing descriptors: " .vnull) id resp

/-- `listDescriptors`: params `{private}`; catch logs and returns
`null`. -/
def listDescriptors (s : RPCState) (includePrivate : Bool) (resp : TransportResp) :
    MethodResult :=
  if s.rpc.isNone then notInitialized s else
  transportCall s (some (.vobj [("private", .vbool includePrivate)]))
    (.swallow "Error listing descriptors: " .vnull) id resp

/-- `migrateWallet`: params `{wallet_name, passphrase}`; catch logs and
returns `null`. -/
def migrateWallet (s : RPCState) (walletName : Option String) (passphrase : Option String)
    (resp : TransportResp) : MethodResult :=
  if s.rpc.isNone then notInitialized s else
  transportCall s
    (some (.vobj [("wallet_name", optV .vstr walletName), ("passphrase", optV .vstr passphrase)]))
    (.swallow "Error migrating wallet: " .vnull) id resp

/-- `newKeypool`: no parameter object; catch logs and rethrows; resolves
with `undefined` (void method). -/
def newKeypool (s : RPCState) (resp : TransportResp) : MethodResult :=
  if s.rpc.isNone then notInitialized s else
  transportCall s none (.logRethrow "Error creating new keypool: ") (fun _ => .vundefined) resp

/-- `psbtBumpFee`: params `{txid, options}`; catch logs and returns
`null`. -/
def psbtBumpFee (s : RPCState) (txid : String) (options : Option JsVal) (resp : TransportResp) :
    MethodResult :=
  if s.rpc.isNone then notInitialized s else
  transportCall s (some (.vobj [("txid", .vstr txid), ("options", optV id options)]))
    (.swallow "Error bumping fee with PSBT: " .vnull) id resp

/-- The optional second argument of `send` / `sendAll`, fields as read by
those methods. -/
structure SendOptions where
  confTarget : Option Int
  estimateMode : Option String
  feeRate : Option JsVal
  advancedOptions : Option JsVal

/-- The optional chain `options?.f` as a JavaScript value. -/
def sendOpt (options : Option SendOptions) (f : SendOptions → Option JsVal) : JsVal :=
  match options with
  | some o =>
    match f o with
    | some v => v
    | none => .vundefined
  | none => .vundefined

/-- `send`: params `{outputs, conf_target, estimate_mode, fee_rate,
options}`; catch logs and returns `null`. -/
def send (s : RPCState) (outputs : JsVal) (options : Option SendOptions)
    (resp : TransportResp) : MethodResult :=
  if s.rpc.isNone then notInitialized s else
  transportCall s
    (some (.vobj [("outputs", outputs),
      ("conf_target", sendOpt options (fun o => o.confTarget.map .vnum)),
      ("estimate_mode", sendOpt options (fun o => o.estimateMode.map .vstr)),
      ("fee_rate", sendOpt options (fun o => o.feeRate)),
      ("options", sendOpt options (fun o => o.advancedOptions))]))
    (.swallow "Error sending transaction: " .vnull) id resp

/-- `sendAll`: params `{recipients, conf_target, estimate_mode, fee_rate,
options}`; catch logs and returns `null`. -/
def sendAll (s : RPCState) (recipients : JsVal) (options : Option SendOptions)
    (resp : TransportResp) : MethodResult :=
  if s.rpc.isNone then notInitialized s else
  transportCall s
    (some (.vobj [("recipients", recipients),
      ("conf_target", sendOpt options (fun o => o.confTarget.map .vnum)),
      ("estimate_mode", sendOpt options (fun o => o.estimateMode.map .vstr)),
      ("fee_rate", sendOpt options (fun o => o.feeRate)),
      ("options", sendOpt options (fun o => o.advancedOptions))]))
    (.swallow "Error sending all: " .vnull) id resp

/-- `simulateRawTransaction`: params `{rawtxs, options: {include_watchonly}}`;
catch logs and returns `null`. -/
def simulateRawTransaction (s : RPCState) (rawTxs : List String) (includeWatchOnly : Bool)
    (resp : TransportResp) : MethodResult :=
  if s.rpc.isNone then notInitialized s else
  transportCall s
    (some (.vobj [("rawtxs", .varr (rawTxs.map .vstr)),
      ("options", .vobj [("include_watchonly", .vbool includeWatchOnly)])]))
    (.swallow "Error simulating transaction: " .vnull) id resp

/-- `upgradeWallet`: params `{version}` when the version is truthy, else
`{}`; catch logs and returns `null`. -/
def upgradeWallet (s : RPCState) (version : Option Int) (resp : TransportResp) : MethodResult :=
  if s.rpc.isNone then notInitialized s else
  transportCall s
    (some (match version with
      | some 0 => .vobj []
      | some v => .vobj [("version", .vnum v)]
      | none => .vobj []))
    (.swallow "Error upgrading wallet: " .vnull) id resp

/-- `getBlockAsHexString`: params `{blockhash, verbosity: NONE}`; catch
logs and returns `null`; the result is mapped to `null` when it is loosely
equal to the empty string. -/
def getBlockAsHexString (s : RPCState) (blockHash : String) (resp : TransportResp) :
    MethodResult :=
  if s.rpc.isNone then notInitialized s else
  transportCall s
    (some (.vobj [("blockhash", .vstr blockHash), ("verbosity", verbosityVal .NONE)]))
    (.swallow "Error getting block data: " .vnull)
    (fun v => match looseEqEmptyStr v with
      | true => .vnull
      | false => v) resp

/-- `estimateSmartFee`: params `{conf_target, estimate_mode}`; no catch
handler, so a transport failure rejects the method without logging. -/
def estimateSmartFee (s : RPCState) (confTarget : Int) (estimateMode : FeeEstimation)
    (resp : TransportResp) : MethodResult :=
  if s.rpc.isNone then notInitialized s else
  transportCall s
    (some (.vobj [("conf_target", .vnum confTarget),
      ("estimate_mode", feeEstimationVal estimateMode)]))
    .nocatch id resp

/-- `joinPSBTs`: params `{txs}`; catch logs and returns `''`; result
normalized with `|| null`. -/
def joinPSBTs (s : RPCState) (psbts : List String) (resp : TransportResp) : MethodResult :=
  if s.rpc.isNone then notInitialized s else
  transportCall s (some (.vobj [("txs", .varr (psbts.map .vstr))]))
    (.swallow "Error joining PSBTs: " (.vstr "")) jsOrNull resp

/-- `getBlockInfoOnly`: params `{blockhash, verbosity: RAW}`; catch logs
and returns `null`; result normalized with `|| null`. -/
def getBlockInfoOnly (s : RPCState) (blockHash : String) (resp : TransportResp) : MethodResult :=
  if s.rpc.isNone then notInitialized s else
  transportCall s
    (some (.vobj [("blockhash", .vstr blockHash), ("verbosity", verbosityVal .RAW)]))
    (.swallow "Error getting block data: " .vnull) jsOrNull resp

/-- `getBlockInfoWithTransactionData`: params `{blockhash, verbosity: 2}`;
catch logs and returns `null`; result normalized with `|| null`. -/
def getBlockInfoWithTransactionData (s : RPCState) (blockHash : String) (resp : TransportResp) :
    MethodResult :=
  if s.rpc.isNone then notInitialized s else
  transportCall s (some (.vobj [("blockhash", .vstr blockHash), ("verbosity", .vnum 2)]))
    (.swallow "Error getting block data: " .vnull) jsOrNull resp

/-- `getBlockHashes`: params `{height}` (plus a positional count); catch
logs and returns `[]`; result normalized with `|| null`. -/
def getBlockHashes (s : RPCState) (height : Int) (count : Int) (resp : TransportResp) :
    MethodResult :=
  have _ := count
  if s.rpc.isNone then notInitialized s else
  transportCall s (some (.vobj [("height", .vnum height)]))
    (.swallow "Error getting block hashes: " (.varr [])) jsOrNull resp

/-- `getBlocksInfoWithTransactionData`: `getblockBatch(hashes, 2)`; catch
logs and returns `null`; result normalized with `|| null`. -/
def getBlocksInfoWithTransactionData (s : RPCState) (blockHashes : List String)
    (resp : TransportResp) : MethodResult :=
  if s.rpc.isNone then notInitialized s else
  transportCall s (some (.varr (blockHashes.map .vstr)))
    (.swallow "Error getting block data: " .vnull) jsOrNull resp

/-- `getBlockCount`: catch logs and returns `0`; result normalized with
`?? null`. -/
def getBlockCount (s : RPCState) (resp : TransportResp) : MethodResult :=
  if s.rpc.isNone then notInitialized s else
  transportCall s none (.swallow "Error getting block count: " (.vnum 0)) jsNullishNull resp

/-- `getBlockFilter`: params `{blockhash, filtertype}`; catch logs and
returns `null`; result normalized with `|| null`. -/
def getBlockFilter (s : RPCState) (blockHash : String) (filterType : Option String)
    (resp : TransportResp) : MethodResult :=
  if s.rpc.isNone then notInitialized s else
  transportCall s
    (some (.vobj [("blockhash", .vstr blockHash), ("filtertype", optV .vstr filterType)]))
    (.swallow "Error getting block filter: " .vnull) jsOrNull resp

/-- `getBlockHash`: params `{height}`; catch logs and returns `''`; result
normalized with `|| null`. -/
def getBlockHash (s : RPCState) (height : Int) (resp : TransportResp) : MethodResult :=
  if s.rpc.isNone then notInitialized s else
  transportCall s (some (.vobj [("height", .vnum height)]))
    (.swallow "Error getting block hash: " (.vstr "")) jsOrNull resp

/-- `getChainInfo`: no catch handler, so a transport failure rejects the
method and leaves the state untouched.  On resolution the response is
stored in `blockchainInfo`; when it is truthy, `currentBlockInfo` is set
to the derived `{blockHeight, blockHash}` pair; the method returns the
stored `blockchainInfo`. -/
def getChainInfo (s : RPCState) (resp : TransportResp) : MethodResult :=
  if s.rpc.isNone then notInitialized s else
  match resp with
  | .error e =>
    { state := s
      outcome := .thrown e
      transportCalled := true
      sentParams := none
      errors := [] }
  | .ok v =>
    let s1 : RPCState := { s with blockchainInfo := v }
    let s2 : RPCState :=
      match truthy v with
      | true =>
        { s1 with currentBlockInfo :=
            (.vobj [("blockHeight", getField v "blocks"),
                    ("blockHash", getField v "bestblockhash")]) }
      | false => s1
    { state := s2
      outcome := .ret s2.blockchainInfo
      transportCalled := true
      sentParams := none
      errors := [] }

/-- `getWalletInfo`: the wallet name is the positional transport argument;
catch logs and returns `null`; result normalized with `|| null`. -/
def getWalletInfo (s : RPCState) (walletName : String) (resp : TransportResp) : MethodResult :=
  if s.rpc.isNone then notInitialized s else
  transportCall s (some (.vstr walletName))
    (.swallow "Error getting wallet info: " .vnull) jsOrNull resp

/-- `createWallet`: the caller-supplied params object is forwarded; catch
logs and returns `''`; result normalized with `|| null`. -/
def createWallet (s : RPCState) (ps : JsVal) (resp : TransportResp) : MethodResult :=
  if s.rpc.isNone then notInitialized s else
  transportCall s (some ps) (.swallow "Error creating wallet: " (.vstr "")) jsOrNull resp

/-- `loadWallet`: params `{filename}`; catch logs and returns `''`; result
normalized with `|| null`. -/
def loadWallet (s : RPCState) (filename : String) (resp : TransportResp) : MethodResult :=
  if s.rpc.isNone then notInitialized s else
  transportCall s (some (.vobj [("filename", .vstr filename)]))
    (.swallow "Error loading wallet: " (.vstr "")) jsOrNull resp

/-- `listWallets`: catch logs and returns `[]`; result normalized with
`|| null`. -/
def listWallets (s : RPCState) (resp : TransportResp) : MethodResult :=
  if s.rpc.isNone then notInitialized s else
  transportCall s none (.swallow "Error listing wallets: " (.varr [])) jsOrNull resp

/-- `getNewAddress`: params `{label}`; catch logs and returns `''`; result
normalized with `|| null`. -/
def getNewAddress (s : RPCState) (label : String) (resp : TransportResp) : MethodResult :=
  if s.rpc.isNone then notInitialized s else
  transportCall s (some (.vobj [("label", .vstr label)]))
    (.swallow "Error getting new address: " (.vstr "")) jsOrNull resp

/-- `generateToAddress`: params `{nblocks, address}`; catch logs and
returns `[]`; result normalized with `|| null`. -/
def generateToAddress (s : RPCState) (nBlock : Int) (address : String) (resp : TransportResp) :
    MethodResult :=
  if s.rpc.isNone then notInitialized s else
  transportCall s (some (.vobj [("nblocks", .vnum nBlock), ("address", .vstr address)]))
    (.swallow "Error generating to address: " (.varr [])) jsOrNull resp

/-- `importPrivateKey`: params `{privkey, label, rescan}`; catch logs and
swallows; resolves with `undefined` (void method). -/
def importPrivateKey (s : RPCState) (privateKey : String) (label : String)
    (rescan : Option Bool) (resp : TransportResp) : MethodResult :=
  if s.rpc.isNone then notInitialized s else
  transportCall s
    (some (.vobj [("privkey", .vstr privateKey), ("label", .vstr label),
      ("rescan", optV .vbool rescan)]))
    (.swallow "Error importing private key: " .vundefined) (fun _ => .vundefined) resp

/-- `invalidateBlock`: params `{blockhash}`; catch logs and rethrows;
resolves with `undefined` (void method). -/
def invalidateBlock (s : RPCState) (blockHash : String) (resp : TransportResp) : MethodResult :=
  if s.rpc.isNone then notInitialized s else
  transportCall s (some (.vobj [("blockhash", .vstr blockHash)]))
    (.logRethrow "Error invalidating block: ") (fun _ => .vundefined) resp

/-- `reconsiderBlock`: params `{blockhash}`; catch logs and rethrows;
resolves with `undefined` (void method). -/
def reconsiderBlock (s : RPCState) (blockHash : String) (resp : TransportResp) : MethodResult :=
  if s.rpc.isNone then notInitialized s else
  transportCall s (some (.vobj [("blockhash", .vstr blockHash)]))
    (.logRethrow "Error reconsidering block: ") (fun _ => .vundefined) resp

/-- `getAddressByLabel`: params `{label}`; catch logs and rethrows; result
normalized with `|| null`. -/
def getAddressByLabel (s : RPCState) (label : String) (resp : TransportResp) : MethodResult :=
  if s.rpc.isNone then notInitialized s else
  transportCall s (some (.vobj [("label", .vstr label)]))
    (.logRethrow "Error getting address by label: ") jsOrNull resp

/-- `sendRawTransaction`: the caller-supplied params object is forwarded;
the catch handler rethrows without logging; result normalized with
`|| null`. -/
def sendRawTransaction (s : RPCState) (ps : JsVal) (resp : TransportResp) : MethodResult :=
  if s.rpc.isNone then notInitialized s else
  transportCall s (some ps) .rethrowSilent jsOrNull resp

/-- `decodeRawTransaction`: params `{hexstring, iswitness}`; catch logs
and returns `null`; result normalized with `|| null`. -/
def decodeRawTransaction (s : RPCState) (hexString : String) (isWitness : Bool)
    (resp : TransportResp) : MethodResult :=
  if s.rpc.isNone then notInitialized s else
  transportCall s
    (some (.vobj [("hexstring", .vstr hexString), ("iswitness", .vbool isWitness)]))
    (.swallow "Error decoding raw transaction: " .vnull) jsOrNull resp

/-- `dumpPrivateKey`: params `{address}`; catch logs and returns `''`;
result normalized with `|| null`. -/
def dumpPrivateKey (s : RPCState) (address : String) (resp : TransportResp) : MethodResult :=
  if s.rpc.isNone then notInitialized s else
  transportCall s (some (.vobj [("address", .vstr address)]))
    (.swallow "Error dumping private key: " (.vstr "")) jsOrNull resp

/-- The wire parameter object built by `getRawTransaction`: `{txid,
verbose: parameters.verbose !== RAW}` with `blockhash` added only when
`parameters.blockHash` is truthy. -/
def buildRawTxParams (parameters : BitcoinRawTransactionParams) : JsVal :=
  let base : List (String × JsVal) :=
    [("txid", .vstr parameters.txId),
     ("verbose", .vbool (decide (parameters.verbose ≠ some .RAW)))]
  match parameters.blockHash with
  | some h => if h = "" then .vobj base else .vobj (base ++ [("blockhash", .vstr h)])
  | none => .vobj base

/-- `getRawTransaction`: sends `buildRawTxParams`; catch logs and returns
`null`; result normalized with `|| null`. -/
def getRawTransaction (s : RPCState) (parameters : BitcoinRawTransactionParams)
    (resp : TransportResp) : MethodResult :=
  if s.rpc.isNone then notInitialized s else
  transportCall s (some (buildRawTxParams parameters))
    (.swallow "Error getting raw transaction: " .vnull) jsOrNull resp

/-- `getRawTransactions`: `getrawtransactionBatch(txs, verbose !== RAW)`;
catch logs and returns `null`; result normalized with `|| null`. -/
def getRawTransactions (s : RPCState) (txs : List String) (verbose : Option BitcoinVerbosity)
    (resp : TransportResp) : MethodResult :=
  have _ := verbose
  if s.rpc.isNone then notInitialized s else
  transportCall s (some (.varr (txs.map .vstr)))
    (.swallow "Error getting raw transactions: " .vnull) jsOrNull resp

/-- `getBlockHeight`: when `currentBlockInfo` is truthy it is returned
without touching the transport; otherwise `getChainInfo` runs first (its
rejection propagates) and whatever `currentBlockInfo` it left is
returned. -/
def getBlockHeight (s : RPCState) (resp : TransportResp) : MethodResult :=
  if s.rpc.isNone then notInitialized s else
  match truthy s.currentBlockInfo with
  | true =>
    { state := s
      outcome := .ret s.currentBlockInfo
      transportCalled := false
      sentParams := none
      errors := [] }
  | false =>
    let r := getChainInfo s resp
    match r.outcome with
    | .thrown e => { r with outcome := .thrown e }
    | _ => { r with outcome := .ret r.state.currentBlockInfo }

/-- `getBlockHeader`: params `{blockhash, verbose}`; catch logs and
returns `''`; result normalized with `|| null`. -/
def getBlockHeader (s : RPCState) (blockHash : String) (verbose : Option Bool)
    (resp : TransportResp) : MethodResult :=
  if s.rpc.isNone then notInitialized s else
  transportCall s
    (some (.vobj [("blockhash", .vstr blockHash), ("verbose", optV .vbool verbose)]))
    (.swallow "Error getting block header: " (.vstr "")) jsOrNull resp

/-- `getBlockStatsByHeight`: params `{hash_or_height: height, stats}`;
catch logs and returns `null`; result normalized with `|| null`. -/
def getBlockStatsByHeight (s : RPCState) (height : Int) (stats : Option (List String))
    (resp : TransportResp) : MethodResult :=
  if s.rpc.isNone then notInitialized s else
  transportCall s
    (some (.vobj [("hash_or_height", .vnum height),
      ("stats", optV (fun l => .varr (l.map .vstr)) stats)]))
    (.swallow "Error getting block stats: " .vnull) jsOrNull resp

/-- `getBlockStatsByHash`: params `{hash_or_height: blockHash, stats}`;
catch logs and returns `null`; result normalized with `|| null`. -/
def getBlockStatsByHash (s : RPCState) (blockHash : String) (stats : Option (List String))
    (resp : TransportResp) : MethodResult :=
  if s.rpc.isNone then notInitialized s else
  transportCall s
    (some (.vobj [("hash_or_height", .vstr blockHash),
      ("stats", optV (fun l => .varr (l.map .vstr)) stats)]))
    (.swallow "Error getting block stats: " .vnull) jsOrNull resp

/-- `getChainTips`: catch logs and returns `null`; result normalized with
`|| null`. -/
def getChainTips (s : RPCState) (resp : TransportResp) : MethodResult :=
  if s.rpc.isNone then notInitialized s else
  transportCall s none (.swallow "Error getting chain tips: " .vnull) jsOrNull resp

/-- `getChainTxStats`: the caller-supplied params object is forwarded;
catch logs and returns `null`; result normalized with `|| null`. -/
def getChainTxStats (s : RPCState) (param : JsVal) (resp : TransportResp) : MethodResult :=
  if s.rpc.isNone then notInitialized s else
  transportCall s (some param) (.swallow "Error getting chain tx stats: " .vnull) jsOrNull resp

/-- `getDifficulty`: catch logs and returns `0`; result normalized with
`?? null`. -/
def getDifficulty (s : RPCState) (resp : TransportResp) : MethodResult :=
  if s.rpc.isNone then notInitialized s else
  transportCall s none (.swallow "Error getting difficulty: " (.vnum 0)) jsNullishNull resp

/-- `getMempoolAncestors`: params `{txid, verbose: verbose !== RAW}`;
catch logs and returns `null`; result normalized with `|| null`. -/
def getMempoolAncestors (s : RPCState) (txId : String) (verbose : Option BitcoinVerbosity)
    (resp : TransportResp) : MethodResult :=
  if s.rpc.isNone then notInitialized s else
  transportCall s
    (some (.vobj [("txid", .vstr txId), ("verbose", .vbool (decide (verbose ≠ some .RAW)))]))
    (.swallow "Error getting mempool ancestors: " .vnull) jsOrNull resp

/-- `getMempoolDescendants`: params `{txid, verbose: verbose !== RAW}`;
catch logs and returns `null`; result normalized with `|| null`. -/
def getMempoolDescendants (s : RPCState) (txid : String) (verbose : Option BitcoinVerbosity)
    (resp : TransportResp) : MethodResult :=
  if s.rpc.isNone then notInitialized s else
  transportCall s
    (some (.vobj [("txid", .vstr txid), ("verbose", .vbool (decide (verbose ≠ some .RAW)))]))
    (.swallow "Error getting mempool descendants: " .vnull) jsOrNull resp

/-- `getMempoolEntry`: params `{txid}`; catch logs and returns `null`;
result normalized with `|| null`. -/
def getMempoolEntry (s : RPCState) (txid : String) (resp : TransportResp) : MethodResult :=
  if s.rpc.isNone then notInitialized s else
  transportCall s (some (.vobj [("txid", .vstr txid)]))
    (.swallow "Error getting mempool entry: " .vnull) jsOrNull resp

/-- `getMempoolInfo`: catch logs and returns `null`; result normalized
with `|| null`. -/
def getMempoolInfo (s : RPCState) (resp : TransportResp) : MethodResult :=
  if s.rpc.isNone then notInitialized s else
  transportCall s none (.swallow "Error getting mempool info: " .vnull) jsOrNull resp

/-- `getRawMempool`: params `{verbose: verbose !== RAW}`; catch logs and
returns `null`; result normalized with `|| null`. -/
def getRawMempool (s : RPCState) (verbose : Option BitcoinVerbosity) (resp : TransportResp) :
    MethodResult :=
  if s.rpc.isNone then notInitialized s else
  transportCall s (some (.vobj [("verbose", .vbool (decide (verbose ≠ some .RAW)))]))
    (.swallow "Error getting raw mempool: " .vnull) jsOrNull resp

/-- `getTxOut`: params `{n, txid, include_mempool}`; catch logs and
returns `null`; result normalized with `|| null`. -/
def getTxOut (s : RPCState) (txid : String) (voutNumber : Int) (includeMempool : Option Bool)
    (resp : TransportResp) : MethodResult :=
  if s.rpc.isNone then notInitialized s else
  transportCall s
    (some (.vobj [("n", .vnum voutNumber), ("txid", .vstr txid),
      ("include_mempool", optV .vbool includeMempool)]))
    (.swallow "Error getting tx out: " .vnull) jsOrNull resp

/-- `getTxOutProof`: params `{txids, blockhash}`; catch logs and returns
`''`; result normalized with `|| null`. -/
def getTxOutProof (s : RPCState) (txids : List String) (blockHash : Option String)
    (resp : TransportResp) : MethodResult :=
  if s.rpc.isNone then notInitialized s else
  transportCall s
    (some (.vobj [("txids", .varr (txids.map .vstr)), ("blockhash", optV .vstr blockHash)]))
    (.swallow "Error getting tx out proof: " (.vstr "")) jsOrNull resp

/-- `getTxOutSetInfo`: catch logs and returns `null`; result normalized
with `|| null`. -/
def getTxOutSetInfo (s : RPCState) (resp : TransportResp) : MethodResult :=
  if s.rpc.isNone then notInitialized s else
  transportCall s none (.swallow "Error getting tx out set info: " .vnull) jsOrNull resp

/-- `preciousBlock`: params `{blockhash}`; catch logs and swallows;
resolves with `undefined` (void method). -/
def preciousBlock (s : RPCState) (blockHash : String) (resp : TransportResp) : MethodResult :=
  if s.rpc.isNone then notInitialized s else
  transportCall s (some (.vobj [("blockhash", .vstr blockHash)]))
    (.swallow "Error precious block: " .vundefined) (fun _ => .vundefined) resp

/-- `pruneBlockChain`: params `{height}`; catch logs and returns `0`;
result normalized with `?? null`. -/
def pruneBlockChain (s : RPCState) (height : Int) (resp : TransportResp) : MethodResult :=
  if s.rpc.isNone then notInitialized s else
  transportCall s (some (.vobj [("height", .vnum height)]))
    (.swallow "Error pruning blockchain: " (.vnum 0)) jsNullishNull resp

/-- `saveMempool`: catch logs and swallows; resolves with `undefined`
(void method). -/
def saveMempool (s : RPCState) (resp : TransportResp) : MethodResult :=
  if s.rpc.isNone then notInitialized s else
  transportCall s none (.swallow "Error saving mempool: " .vundefined)
    (fun _ => .vundefined) resp

/-- `verifyChain`: params `{checklevel, nblocks}`; catch logs and returns
`false`; result normalized with `?? null`. -/
def verifyChain (s : RPCState) (checkLevel : Option Int) (nblocks : Option Int)
    (resp : TransportResp) : MethodResult :=
  if s.rpc.isNone then notInitialized s else
  transportCall s
    (some (.vobj [("checklevel", optV .vnum checkLevel), ("nblocks", optV .vnum nblocks)]))
    (.swallow "Error verifying chain: " (.vbool false)) jsNullishNull resp

/-- `verifyTxOutProof`: params `{proof}`; catch logs and returns `[]`;
result normalized with `|| null`. -/
def verifyTxOutProof (s : RPCState) (proof : String) (resp : TransportResp) : MethodResult :=
  if s.rpc.isNone then notInitialized s else
  transportCall s (some (.vobj [("proof", .vstr proof)]))
    (.swallow "Error verifying tx out proof: " (.varr [])) jsOrNull resp

/-- `testRPC`: runs `getChainInfo` inside a try/catch.  A rejection is
caught and logged and the method resolves; a falsy chain info logs and
terminates the process with exit code 1. -/
def testRPC (s : RPCState) (resp : TransportResp) : MethodResult :=
  let r := getChainInfo s resp
  match r.outcome with
  | .thrown e =>
    { r with outcome := .ret .vundefined
             errors := r.errors ++ ["RPC errored. Please check your configuration. " ++ errMessage e] }
  | .ret v =>
    match truthy v with
    | true => { r with outcome := .ret .vundefined }
    | false =>
      { r with outcome := .exited 1
               errors := r.errors ++ ["RPC errored. Please check your configuration."] }
  | .exited c => { r with outcome := .exited c }

/-- `init`: rejects when a transport handle already exists; otherwise
constructs the `RPCClient` from `getRpcConfigFromBlockchainConfig` and
runs the `testRPC` connectivity check. -/
def init (s : RPCState) (rpcInfo : RPCConfig) (resp : TransportResp) : MethodResult :=
  if s.rpc.isSome then
    { state := s
      outcome := .thrown (.errorObj "RPC already initialized")
      transportCalled := false
      sentParams := none
      errors := [] }
  else
    let rpcConfig := getRpcConfigFromBlockchainConfig rpcInfo
    let s1 : RPCState := { s with rpc := some { opts := rpcConfig } }
    testRPC s1 resp

/-- One invocation of an exposed RPC method, with its arguments.  `init`,
`destroy` and `getRpcConfigFromBlockchainConfig` are lifecycle/helper
members, not RPC methods, and are not listed. -/
inductive MethodCall where
  | mGetBestBlockHash
  | mGetBlockBatch (blockHashes : List String)
  | mGetBestBlockHeader (verbose : Bool)
  | mGetDeploymentInfo (blockHash : Option String)
  | mGetMempoolEntryById (wtxid : String)
  | mGenerate (nBlocks : Int) (maxTries : Option Int)
  | mGenerateBlock (output : String) (transactions : List String) (submit : Bool)
  | mAddPeerAddress (address : String) (port : Int) (tried : Bool)
  | mGetNodeAddresses (count : Option Int)
  | mSendMsgToPeer (peerId : Int) (msgType : String) (data : String)
  | mSubmitPackage (packageTxs : List String) (maxFeeRate : Option JsVal)
      (maxBurnAmount : Option JsVal)
  | mGetIndexInfo (indexName : Option String)
  | mVerifyChainLock (blockHash : String) (signature : String) (height : Int)
  | mCreateWalletDescriptor (ty : String) (internal : Option Bool) (hdkey : Option String)
  | mGetHDKeys (activeOnly : Bool) (privateKeys : Bool)
  | mImportDescriptors (requests : JsVal)
  | mListDescriptors (includePrivate : Bool)
  | mMigrateWallet (walletName : Option String) (passphrase : Option String)
  | mNewKeypool
  | mPsbtBumpFee (txid : String) (options : Option JsVal)
  | mSend (outputs : JsVal) (options : Option SendOptions)
  | mSendAll (recipients : JsVal) (options : Option SendOptions)
  | mSimulateRawTransaction (rawTxs : List String) (includeWatchOnly : Bool)
  | mUpgradeWallet (version : Option Int)
  | mGetBlockAsHexString (blockHash : String)
  | mEstimateSmartFee (confTarget : Int) (estimateMode : FeeEstimation)
  | mJoinPSBTs (psbts : List String)
  | mGetBlockInfoOnly (blockHash : String)
  | mGetBlockInfoWithTransactionData (blockHash : String)
  | mGetBlockHashes (height : Int) (count : Int)
  | mGetBlocksInfoWithTransactionData (blockHashes : List String)
  | mGetBlockCount
  | mGetBlockFilter (blockHash : String) (filterType : Option String)
  | mGetBlockHash (height : Int)
  | mGetChainInfo
  | mGetWalletInfo (walletName : String)
  | mCreateWallet (ps : JsVal)
  | mLoadWallet (filename : String)
  | mListWallets
  | mGetNewAddress (label : String)
  | mGenerateToAddress (nBlock : Int) (address : String)
  | mImportPrivateKey (privateKey : String) (label : String) (rescan : Option Bool)
  | mInvalidateBlock (blockHash : String)
  | mReconsiderBlock (blockHash : String)
  | mGetAddressByLabel (label : String)
  | mSendRawTransaction (ps : JsVal)
  | mDecodeRawTransaction (hexString : String) (isWitness : Bool)
  | mDumpPrivateKey (address : String)
  | mGetRawTransaction (parameters : BitcoinRawTransactionParams)
  | mGetRawTransactions (txs : List String) (verbose : Option BitcoinVerbosity)
  | mGetBlockHeight
  | mGetBlockHeader (blockHash : String) (verbose : Option Bool)
  | mGetBlockStatsByHeight (height : Int) (stats : Option (List String))
  | mGetBlockStatsByHash (blockHash : String) (stats : Option (List String))
  | mGetChainTips
  | mGetChainTxStats (param : JsVal)
  | mGetDifficulty
  | mGetMempoolAncestors (txId : String) (verbose : Option BitcoinVerbosity)
  | mGetMempoolDescendants (txid : String) (verbose : Option BitcoinVerbosity)
  | mGetMempoolEntry (txid : String)
  | mGetMempoolInfo
  | mGetRawMempool (verbose : Option BitcoinVerbosity)
  | mGetTxOut (txid : String) (voutNumber : Int) (includeMempool : Option Bool)
  | mGetTxOutProof (txids : List String) (blockHash : Option String)
  | mGetTxOutSetInfo
  | mPreciousBlock (blockHash : String)
  | mPruneBlockChain (height : Int)
  | mSaveMempool
  | mVerifyChain (checkLevel : Option Int) (nblocks : Option Int)
  | mVerifyTxOutProof (proof : String)

/-- Dispatch of a method invocation to its embedding. -/
def runMethod : MethodCall → RPCState → TransportResp → MethodResult
  | .mGetBestBlockHash, s, r => getBestBlockHash s r
  | .mGetBlockBatch hs, s, r => getBlockBatch s hs r
  | .mGetBestBlockHeader v, s, r => getBestBlockHeader s v r
  | .mGetDeploymentInfo b, s, r => getDeploymentInfo s b r
  | .mGetMempoolEntryById w, s, r => getMempoolEntryById s w r
  | .mGenerate n m, s, r => generate s n m r
  | .mGenerateBlock o t b, s, r => generateBlock s o t b r
  | .mAddPeerAddress a p t, s, r => addPeerAddress s a p t r
  | .mGetNodeAddresses c, s, r => getNodeAddresses s c r
  | .mSendMsgToPeer p m d, s, r => sendMsgToPeer s p m d r
  | .mSubmitPackage p f b, s, r => submitPackage s p f b r
  | .mGetIndexInfo n, s, r => getIndexInfo s n r
  | .mVerifyChainLock b g h, s, r => verifyChainLock s b g h r
  | .mCreateWalletDescriptor t i h, s, r => createWalletDescriptor s t i h r
  | .mGetHDKeys a p, s, r => getHDKeys s a p r
  | .mImportDescriptors q, s, r => importDescriptors s q r
  | .mListDescriptors p, s, r => listDescriptors s p r
  | .mMigrateWallet w p, s, r => migrateWallet s w p r
  | .mNewKeypool, s, r => newKeypool s r
  | .mPsbtBumpFee t o, s, r => psbtBumpFee s t o r
  | .mSend o p, s, r => send s o p r
  | .mSendAll c p, s, r => sendAll s c p r
  | .mSimulateRawTransaction t w, s, r => simulateRawTransaction s t w r
  | .mUpgradeWallet v, s, r => upgradeWallet s v r
  | .mGetBlockAsHexString b, s, r => getBlockAsHexString s b r
  | .mEstimateSmartFee c m, s, r => estimateSmartFee s c m r
  | .mJoinPSBTs p, s, r => joinPSBTs s p r
  | .mGetBlockInfoOnly b, s, r => getBlockInfoOnly s b r
  | .mGetBlockInfoWithTransactionData b, s, r => getBlockInfoWithTransactionData s b r
  | .mGetBlockHashes h c, s, r => getBlockHashes s h c r
  | .mGetBlocksInfoWithTransactionData b, s, r => getBlocksInfoWithTransactionData s b r
  | .mGetBlockCount, s, r => getBlockCount s r
  | .mGetBlockFilter b f, s, r => getBlockFilter s b f r
  | .mGetBlockHash h, s, r => getBlockHash s h r
  | .mGetChainInfo, s, r => getChainInfo s r
  | .mGetWalletInfo w, s, r => getWalletInfo s w r
  | .mCreateWallet p, s, r => createWallet s p r
  | .mLoadWallet f, s, r => loadWallet s f r
  | .mListWallets, s, r => listWallets s r
  | .mGetNewAddress l, s, r => getNewAddress s l r
  | .mGenerateToAddress n a, s, r => generateToAddress s n a r
  | .mImportPrivateKey k l c, s, r => importPrivateKey s k l c r
  | .mInvalidateBlock b, s, r => invalidateBlock s b r
  | .mReconsiderBlock b, s, r => reconsiderBlock s b r
  | .mGetAddressByLabel l, s, r => getAddressByLabel s l r
  | .mSendRawTransaction p, s, r => sendRawTransaction s p r
  | .mDecodeRawTransaction h w, s, r => decodeRawTransaction s h w r
  | .mDumpPrivateKey a, s, r => dumpPrivateKey s a r
  | .mGetRawTransaction p, s, r => getRawTransaction s p r
  | .mGetRawTransactions t v, s, r => getRawTransactions s t v r
  | .mGetBlockHeight, s, r => getBlockHeight s r
  | .mGetBlockHeader b v, s, r => getBlockHeader s b v r
  | .mGetBlockStatsByHeight h t, s, r => getBlockStatsByHeight s h t r
  | .mGetBlockStatsByHash b t, s, r => getBlockStatsByHash s b t r
  | .mGetChainTips, s, r => getChainTips s r
  | .mGetChainTxStats p, s, r => getChainTxStats s p r
  | .mGetDifficulty, s, r => getDifficulty s r
  | .mGetMempoolAncestors t v, s, r => getMempoolAncestors s t v r
  | .mGetMempoolDescendants t v, s, r => getMempoolDescendants s t v r
  | .mGetMempoolEntry t, s, r => getMempoolEntry s t r
  | .mGetMempoolInfo, s, r => getMempoolInfo s r
  | .mGetRawMempool v, s, r => getRawMempool s v r
  | .mGetTxOut t n i, s, r => getTxOut s t n i r
  | .mGetTxOutProof t b, s, r => getTxOutProof s t b r
  | .mGetTxOutSetInfo, s, r => getTxOutSetInfo s r
  | .mPreciousBlock b, s, r => preciousBlock s b r
  | .mPruneBlockChain h, s, r => pruneBlockChain s h r
  | .mSaveMempool, s, r => saveMempool s r
  | .mVerifyChain c n, s, r => verifyChain s c n r
  | .mVerifyTxOutProof p, s, r => verifyTxOutProof s p r

/-- The JavaScript-falsy defaults the catch handlers produce (plus the
empty array some handlers return): the "null or empty sentinel" values a
swallowing method can resolve with after a transport failure. -/
def isEmptySentinel : JsVal → Bool
  | .vnull => true
  | .vundefined => true
  | .vstr "" => true
  | .vnum 0 => true
  | .vbool false => true
  | .varr [] => true
  | _ => false

/-- The per-method error-logging policy: which methods pass a message to
`this.error` when their transport call fails.  `estimateSmartFee` has no
catch handler, `sendRawTransaction`'s handler rethrows without logging,
`getChainInfo` has no catch handler, and `getBlockHeight` delegates to
`getChainInfo`. -/
def logsOnFailure : MethodCall → Bool
  | .mEstimateSmartFee _ _ => false
  | .mSendRawTransaction _ => false
  | .mGetChainInfo => false
  | .mGetBlockHeight => false
  | _ => true

/-- A concrete transport client, for witness instantiations. -/
def testClient : RPCClient :=
  { opts := { url := "http://127.0.0.1", port := 8332, user := "user", pass := "pass" } }

/-- A concrete initialized client state, for witness instantiations. -/
def readyState : RPCState := { mkBitcoinRPC 1000 false with rpc := some testClient }

/-- A concrete transport failure, for witness instantiations. -/
def bang : JsErr := .errorObj "connection refused"

/-- A concrete truthy blockchain-info response, for witness
instantiations. -/
def chainInfoSample : JsVal :=
  .vobj [("chain", .vstr "regtest"), ("blocks", .vnum 42), ("bestblockhash", .vstr "00ff")]

/-- A concrete `getRawTransaction` parameter record whose caller supplied
an empty-string block hash. -/
def c8input : BitcoinRawTransactionParams :=
  { txId := "ab12", verbose := some .RAW, blockHash := some "" }

/-- A concrete connection configuration, for witness instantiations. -/
def cfgSample : RPCConfig :=
  { BITCOIND_HOST := "127.0.0.1", BITCOIND_PORT := 8332,
    BITCOIND_USERNAME := "user", BITCOIND_PASSWORD := "pass" }

/-- A concrete initialized state holding a cached block snapshot, for
witness instantiations. -/
def cachedState : RPCState :=
  { readyState with
      currentBlockInfo := .vobj [("blockHeight", .vnum 42), ("blockHash", .vstr "00ff")] }

/-- C2: for every exposed RPC method, when the transport handle is not
initialized (`rpc` is null — the state after construction, and after
`destroy`), the method rejects with `Error('RPC not initialized')`, makes
no transport call, and leaves the state unchanged. -/
theorem c2_uninitialized_guard :
    (∀ (m : MethodCall) (s : RPCState) (resp : TransportResp), s.rpc = none →
      (runMethod m s resp).outcome = .thrown (.errorObj "RPC not initialized") ∧
      (runMethod m s resp).transportCalled = false ∧
      (runMethod m s resp).state = s) ∧
    (∀ (c : Int) (d : Bool), (mkBitcoinRPC c d).rpc = none) ∧
    (∀ s : RPCState, (destroy s).rpc = none) := by
  refine ⟨?_, fun _ _ => rfl, fun _ => rfl⟩
  intro m s resp h
  have hn : s.rpc.isNone = true := by simp [h]
  cases m <;>
    simp [runMethod, getBestBlockHash, getBlockBatch, getBestBlockHeader, getDeploymentInfo,
      getMempoolEntryById, generate, generateBlock, addPeerAddress, getNodeAddresses,
      sendMsgToPeer, submitPackage, getIndexInfo, verifyChainLock, createWalletDescriptor,
      getHDKeys, importDescriptors, listDescriptors, migrateWallet, newKeypool, psbtBumpFee,
      send, sendAll, simulateRawTransaction, upgradeWallet, getBlockAsHexString,
      estimateSmartFee, joinPSBTs, getBlockInfoOnly, getBlockInfoWithTransactionData,
      getBlockHashes, getBlocksInfoWithTransactionData, getBlockCount, getBlockFilter,
      getBlockHash, getChainInfo, getWalletInfo, createWallet, loadWallet, listWallets,
      getNewAddress, generateToAddress, importPrivateKey, invalidateBlock, reconsiderBlock,
      getAddressByLabel, sendRawTransaction, decodeRawTransaction, dumpPrivateKey,
      getRawTransaction, getRawTransactions, getBlockHeight, getBlockHeader,
      getBlockStatsByHeight, getBlockStatsByHash, getChainTips, getChainTxStats, getDifficulty,
      getMempoolAncestors, getMempoolDescendants, getMempoolEntry, getMempoolInfo,
      getRawMempool, getTxOut, getTxOutProof, getTxOutSetInfo, preciousBlock, pruneBlockChain,
      saveMempool, verifyChain, verifyTxOutProof, notInitialized, hn]

/-- Witness for C2 at a concrete input: a freshly constructed client has a
null transport handle, and `getBestBlockHash` then rejects with the
initialization error without touching the transport. -/
theorem c2_uninitialized_guard_witness :
    mkBitcoinRPCDefault.rpc = none ∧
    ((runMethod .mGetBestBlockHash mkBitcoinRPCDefault (.ok (.vnum 7))).outcome =
        .thrown (.errorObj "RPC not initialized") ∧
      (runMethod .mGetBestBlockHash mkBitcoinRPCDefault (.ok (.vnum 7))).transportCalled = false ∧
      (runMethod .mGetBestBlockHash mkBitcoinRPCDefault (.ok (.vnum 7))).state =
        mkBitcoinRPCDefault) :=
  ⟨rfl, c2_uninitialized_guard.1 .mGetBestBlockHash mkBitcoinRPCDefault (.ok (.vnum 7)) rfl⟩

/-- C1: for every exposed RPC method, whenever the transport call it makes
fails, the method either passes a message to the error logger and resolves
with a null/empty sentinel value (null, undefined, an empty string, 0,
false, or an empty array), or it rethrows that same failure to the
caller. -/
theorem c1_failure_swallow_or_rethrow :
    ∀ (m : MethodCall) (s : RPCState) (e : JsErr),
      s.rpc.isSome = true →
      (runMethod m s (.error e)).transportCalled = true →
      ((∃ v, (runMethod m s (.error e)).outcome = .ret v ∧ isEmptySentinel v = true ∧
          (runMethod m s (.error e)).errors ≠ []) ∨
        (runMethod m s (.error e)).outcome = .thrown e) := by
  intro m s e hs hc
  have hn : s.rpc.isNone = false := by
    cases h : s.rpc
    · simp [h] at hs
    · simp [h]
  cases m
  case mGetBlockHeight =>
    cases hcb : truthy s.currentBlockInfo
    · right
      simp [runMethod, getBlockHeight, getChainInfo, hn, hcb]
    · simp [runMethod, getBlockHeight, hn, hcb] at hc
  all_goals
    simp [runMethod, getBestBlockHash, getBlockBatch, getBestBlockHeader, getDeploymentInfo,
      getMempoolEntryById, generate, generateBlock, addPeerAddress, getNodeAddresses,
      sendMsgToPeer, submitPackage, getIndexInfo, verifyChainLock, createWalletDescriptor,
      getHDKeys, importDescriptors, listDescriptors, migrateWallet, newKeypool, psbtBumpFee,
      send, sendAll, simulateRawTransaction, upgradeWallet, getBlockAsHexString,
      estimateSmartFee, joinPSBTs, getBlockInfoOnly, getBlockInfoWithTransactionData,
      getBlockHashes, getBlocksInfoWithTransactionData, getBlockCount, getBlockFilter,
      getBlockHash, getChainInfo, getWalletInfo, createWallet, loadWallet, listWallets,
      getNewAddress, generateToAddress, importPrivateKey, invalidateBlock, reconsiderBlock,
      getAddressByLabel, sendRawTransaction, decodeRawTransaction, dumpPrivateKey,
      getRawTransaction, getRawTransactions, getBlockHeader,
      getBlockStatsByHeight, getBlockStatsByHash, getChainTips, getChainTxStats, getDifficulty,
      getMempoolAncestors, getMempoolDescendants, getMempoolEntry, getMempoolInfo,
      getRawMempool, getTxOut, getTxOutProof, getTxOutSetInfo, preciousBlock, pruneBlockChain,
      saveMempool, verifyChain, verifyTxOutProof, transportCall, jsOrNull, jsNullishNull,
      truthy, isEmptySentinel, looseEqEmptyStr, hn]

/-- Witness for C1 at a concrete input: a failing `getBlockCount` resolves
with the 0 sentinel after logging. -/
theorem c1_failure_swallow_or_rethrow_witness :
    readyState.rpc.isSome = true ∧
    (runMethod .mGetBlockCount readyState (.error bang)).transportCalled = true ∧
    ((∃ v, (runMethod .mGetBlockCount readyState (.error bang)).outcome = .ret v ∧
        isEmptySentinel v = true ∧
        (runMethod .mGetBlockCount readyState (.error bang)).errors ≠ []) ∨
      (runMethod .mGetBlockCount readyState (.error bang)).outcome = .thrown bang) :=
  ⟨rfl, rfl, c1_failure_swallow_or_rethrow .mGetBlockCount readyState bang rfl rfl⟩

/-- Counterexample to C7 as stated: `estimateSmartFee` has no catch
handler, so when its transport call fails nothing at all is passed to the
error logger — the failure is rethrown unlogged. -/
theorem c7_failure_logging_counterexample :
    (runMethod (.mEstimateSmartFee 6 .CONSERVATIVE) readyState (.error bang)).transportCalled =
      true ∧
    (runMethod (.mEstimateSmartFee 6 .CONSERVATIVE) readyState (.error bang)).errors = [] ∧
    (runMethod (.mEstimateSmartFee 6 .CONSERVATIVE) readyState (.error bang)).outcome =
      .thrown bang :=
  ⟨rfl, rfl, rfl⟩

set_option maxHeartbeats 2000000 in
/-- C7 (amended): for every exposed RPC method except `estimateSmartFee`,
`sendRawTransaction`, `getChainInfo` and `getBlockHeight` (which rethrow
transport failures without logging), a failing transport call makes the
method pass exactly one message, ending with the stringified failure, to
the client's error logger (`this.error`, which emits only when debug
output is enabled). -/
theorem c7_failure_logging_amended :
    ∀ (m : MethodCall) (s : RPCState) (e : JsErr),
      s.rpc.isSome = true → logsOnFailure m = true →
      ∃ h, (runMethod m s (.error e)).errors = [h ++ errStr e] := by
  intro m s e hs hm
  have hn : s.rpc.isNone = false := by
    cases h : s.rpc
    · simp [h] at hs
    · simp [h]
  cases m <;>
    first
      | (simp [logsOnFailure] at hm
         done)
      | (simp [runMethod, getBestBlockHash, getBlockBatch, getBestBlockHeader, getDeploymentInfo,
           getMempoolEntryById, generate, generateBlock, addPeerAddress, getNodeAddresses,
           sendMsgToPeer, submitPackage, getIndexInfo, verifyChainLock, createWalletDescriptor,
           getHDKeys, importDescriptors, listDescriptors, migrateWallet, newKeypool, psbtBumpFee,
           send, sendAll, simulateRawTransaction, upgradeWallet, getBlockAsHexString, joinPSBTs,
           getBlockInfoOnly, getBlockInfoWithTransactionData, getBlockHashes,
           getBlocksInfoWithTransactionData, getBlockCount, getBlockFilter, getBlockHash,
           getWalletInfo, createWallet, loadWallet, listWallets, getNewAddress,
           generateToAddress, importPrivateKey, invalidateBlock, reconsiderBlock,
           getAddressByLabel, decodeRawTransaction, dumpPrivateKey, getRawTransaction,
           getRawTransactions, getBlockHeader, getBlockStatsByHeight, getBlockStatsByHash,
           getChainTips, getChainTxStats, getDifficulty, getMempoolAncestors,
           getMempoolDescendants, getMempoolEntry, getMempoolInfo, getRawMempool, getTxOut,
           getTxOutProof, getTxOutSetInfo, preciousBlock, pruneBlockChain, saveMempool,
           verifyChain, verifyTxOutProof, transportCall, hn]
         try exact ⟨_, rfl⟩
         done)

/-- Witness for C7 (amended) at a concrete input: a failing
`getBlockCount` logs one message ending with the stringified failure. -/
theorem c7_failure_logging_amended_witness :
    readyState.rpc.isSome = true ∧ logsOnFailure .mGetBlockCount = true ∧
    ∃ h, (runMethod .mGetBlockCount readyState (.error bang)).errors = [h ++ errStr bang] :=
  ⟨rfl, rfl, c7_failure_logging_amended .mGetBlockCount readyState bang rfl rfl⟩

/-- C3: `init` called with an existing transport handle rejects with
`Error('RPC already initialized')` and changes nothing (state, caches and
handle are returned untouched, no transport call is made); a first `init`
stores a client built from the configuration's host prefixed with
`http://`, its port, username and password. -/
theorem c3_init_at_most_once :
    (∀ (s : RPCState) (cfg : RPCConfig) (resp : TransportResp), s.rpc.isSome = true →
      init s cfg resp =
        { state := s, outcome := .thrown (.errorObj "RPC already initialized"),
          transportCalled := false, sentParams := none, errors := [] }) ∧
    (∀ (s : RPCState) (cfg : RPCConfig) (resp : TransportResp), s.rpc = none →
      (init s cfg resp).state.rpc =
        some { opts := { url := "http://" ++ cfg.BITCOIND_HOST, port := cfg.BITCOIND_PORT,
                         user := cfg.BITCOIND_USERNAME, pass := cfg.BITCOIND_PASSWORD } }) := by
  constructor
  · intro s cfg resp hs
    simp [init, hs]
  · intro s cfg resp h
    have hs : s.rpc.isSome = false := by simp [h]
    cases resp with
    | error e => simp [init, testRPC, getChainInfo, getRpcConfigFromBlockchainConfig, hs]
    | ok v =>
      cases hv : truthy v <;>
        simp [init, testRPC, getChainInfo, getRpcConfigFromBlockchainConfig, hs, hv]

/-- Witness for C3 at concrete inputs: a second `init` on an initialized
state rejects and returns the state unchanged, and a first `init` stores
the client built from the sample configuration. -/
theorem c3_init_at_most_once_witness :
    readyState.rpc.isSome = true ∧
    init readyState cfgSample (.ok chainInfoSample) =
      { state := readyState, outcome := .thrown (.errorObj "RPC already initialized"),
        transportCalled := false, sentParams := none, errors := [] } ∧
    mkBitcoinRPCDefault.rpc = none ∧
    (init mkBitcoinRPCDefault cfgSample (.ok chainInfoSample)).state.rpc =
      some { opts := { url := "http://" ++ cfgSample.BITCOIND_HOST,
                       port := cfgSample.BITCOIND_PORT, user := cfgSample.BITCOIND_USERNAME,
                       pass := cfgSample.BITCOIND_PASSWORD } } :=
  ⟨rfl, c3_init_at_most_once.1 readyState cfgSample (.ok chainInfoSample) rfl, rfl,
    c3_init_at_most_once.2 mkBitcoinRPCDefault cfgSample (.ok chainInfoSample) rfl⟩

/-- C4: a `getChainInfo` call whose transport resolves with a truthy
snapshot stores it as `blockchainInfo` and stores the derived
`{blockHeight: blocks, blockHash: bestblockhash}` pair as
`currentBlockInfo`; the constructor arms the purge timer with the given
`cacheClearInterval` (default 1000), and each firing of that timer resets
both cached values to null — in the timed reading, a cached snapshot
survives at most one timer period. -/
theorem c4_cache_and_purge_timer :
    (∀ (s : RPCState) (v : JsVal), s.rpc.isSome = true → truthy v = true →
      (getChainInfo s (.ok v)).state.blockchainInfo = v ∧
      (getChainInfo s (.ok v)).state.currentBlockInfo =
        (.vobj [("blockHeight", getField v "blocks"),
                ("blockHash", getField v "bestblockhash")]) ∧
      (getChainInfo s (.ok v)).outcome = .ret v) ∧
    (∀ (c : Int) (d : Bool), (mkBitcoinRPC c d).purgeIntervalArmed = true ∧
      (mkBitcoinRPC c d).cacheClearInterval = c) ∧
    defaultCacheClearInterval = 1000 ∧
    (∀ s : RPCState, (purgeTick s).blockchainInfo = .vnull ∧
      (purgeTick s).currentBlockInfo = .vnull) := by
  refine ⟨?_, fun _ _ => ⟨rfl, rfl⟩, rfl, fun _ => ⟨rfl, rfl⟩⟩
  intro s v hs hv
  have hn : s.rpc.isNone = false := by
    cases h : s.rpc
    · simp [h] at hs
    · simp [h]
  simp [getChainInfo, hn, hv]

/-- Witness for C4 at a concrete input: a truthy sample snapshot is stored
together with its derived pair. -/
theorem c4_cache_and_purge_timer_witness :
    readyState.rpc.isSome = true ∧ truthy chainInfoSample = true ∧
    ((getChainInfo readyState (.ok chainInfoSample)).state.blockchainInfo = chainInfoSample ∧
      (getChainInfo readyState (.ok chainInfoSample)).state.currentBlockInfo =
        (.vobj [("blockHeight", getField chainInfoSample "blocks"),
                ("blockHash", getField chainInfoSample "bestblockhash")]) ∧
      (getChainInfo readyState (.ok chainInfoSample)).outcome = .ret chainInfoSample) :=
  ⟨rfl, rfl, c4_cache_and_purge_timer.1 readyState chainInfoSample rfl rfl⟩

/-- C5: `getBlockHeight` returns the cached snapshot without any transport
call when one is present; with no cached snapshot it first runs
`getChainInfo` and returns whatever `currentBlockInfo` that refresh left
(null when the refresh resolved with null). -/
theorem c5_block_height_uses_cache :
    ∀ (s : RPCState) (resp : TransportResp), s.rpc.isSome = true →
      (truthy s.currentBlockInfo = true →
        (getBlockHeight s resp).outcome = .ret s.currentBlockInfo ∧
        (getBlockHeight s resp).transportCalled = false ∧
        (getBlockHeight s resp).state = s) ∧
      (truthy s.currentBlockInfo = false → ∀ v, resp = .ok v →
        (getBlockHeight s resp).state = (getChainInfo s resp).state ∧
        (getBlockHeight s resp).outcome = .ret ((getChainInfo s resp).state.currentBlockInfo) ∧
        (getBlockHeight s resp).transportCalled = true) ∧
      (s.currentBlockInfo = .vnull → resp = .ok .vnull →
        (getBlockHeight s resp).outcome = .ret .vnull) := by
  intro s resp hs
  have hn : s.rpc.isNone = false := by
    cases h : s.rpc
    · simp [h] at hs
    · simp [h]
  refine ⟨fun hcb => ?_, fun hcb v hr => ?_, fun hc0 hr => ?_⟩
  · simp [getBlockHeight, hn, hcb]
  · subst hr
    cases hv : truthy v <;> simp [getBlockHeight, getChainInfo, hn, hcb, hv]
  · subst hr
    simp [getBlockHeight, getChainInfo, hn, hc0, truthy]

/-- Witness for C5 at a concrete input: with a cached snapshot present the
method returns it and does not invoke the transport. -/
theorem c5_block_height_uses_cache_witness :
    cachedState.rpc.isSome = true ∧ truthy cachedState.currentBlockInfo = true ∧
    ((getBlockHeight cachedState (.ok .vnull)).outcome = .ret cachedState.currentBlockInfo ∧
      (getBlockHeight cachedState (.ok .vnull)).transportCalled = false ∧
      (getBlockHeight cachedState (.ok .vnull)).state = cachedState) :=
  ⟨rfl, rfl, (c5_block_height_uses_cache cachedState (.ok .vnull) rfl).1 rfl⟩

/-- C6: `sendRawTransaction` propagates a transport failure unchanged
(rejecting, never resolving with null, and logging nothing); on success it
returns the transaction id string, collapsed to null when the response is
the empty string or null. -/
theorem c6_send_raw_transaction_policy :
    ∀ (s : RPCState) (ps : JsVal), s.rpc.isSome = true →
      (∀ e, (sendRawTransaction s ps (.error e)).outcome = .thrown e ∧
        (sendRawTransaction s ps (.error e)).errors = []) ∧
      (∀ t, (sendRawTransaction s ps (.ok (.vstr t))).outcome =
        .ret (if t = "" then .vnull else .vstr t)) ∧
      (sendRawTransaction s ps (.ok .vnull)).outcome = .ret .vnull := by
  intro s ps hs
  have hn : s.rpc.isNone = false := by
    cases h : s.rpc
    · simp [h] at hs
    · simp [h]
  refine ⟨fun e => ?_, fun t => ?_, ?_⟩
  · simp [sendRawTransaction, transportCall, hn]
  · by_cases ht : t = "" <;>
      simp [sendRawTransaction, transportCall, jsOrNull, truthy, hn, ht]
  · simp [sendRawTransaction, transportCall, jsOrNull, truthy, hn]

/-- Witness for C6 at concrete inputs: a failure is rethrown unlogged, and
an empty-string response resolves to null. -/
theorem c6_send_raw_transaction_policy_witness :
    readyState.rpc.isSome = true ∧
    ((sendRawTransaction readyState (.vobj [("hexstring", .vstr "aa")]) (.error bang)).outcome =
        .thrown bang ∧
      (sendRawTransaction readyState (.vobj [("hexstring", .vstr "aa")]) (.error bang)).errors =
        []) ∧
    (sendRawTransaction readyState (.vobj [("hexstring", .vstr "aa")]) (.ok (.vstr ""))).outcome =
      .ret .vnull :=
  ⟨rfl,
    (c6_send_raw_transaction_policy readyState (.vobj [("hexstring", .vstr "aa")]) rfl).1 bang,
    by
      have h :=
        (c6_send_raw_transaction_policy readyState (.vobj [("hexstring", .vstr "aa")]) rfl).2.1 ""
      simpa using h⟩

/-- Counterexample to C8 as stated: with a supplied but empty block hash
(`blockHash = ''`, which is falsy), the built parameter object carries no
`blockhash` field even though a blockHash was supplied. -/
theorem c8_raw_tx_params_counterexample :
    c8input.blockHash.isSome = true ∧
    (getRawTransaction readyState c8input (.ok .vnull)).sentParams =
      some (.vobj [("txid", .vstr "ab12"), ("verbose", .vbool false)]) ∧
    hasField (buildRawTxParams c8input) "blockhash" = false :=
  ⟨rfl, rfl, rfl⟩

/-- C8 (amended): `getRawTransaction` sends `{txid, verbose}` with
`verbose` true exactly when the requested verbosity is not `RAW`, and the
`blockhash` field is included exactly when a non-empty (truthy) blockHash
was supplied in the parameters. -/
theorem c8_raw_tx_param_shape :
    ∀ (s : RPCState) (p : BitcoinRawTransactionParams) (resp : TransportResp),
      s.rpc.isSome = true →
      (getRawTransaction s p resp).sentParams = some (buildRawTxParams p) ∧
      getField (buildRawTxParams p) "txid" = .vstr p.txId ∧
      getField (buildRawTxParams p) "verbose" = .vbool (decide (p.verbose ≠ some .RAW)) ∧
      (∀ h, p.blockHash = some h →
        (hasField (buildRawTxParams p) "blockhash" = decide (h ≠ "") ∧
          (h ≠ "" → getField (buildRawTxParams p) "blockhash" = .vstr h))) ∧
      (p.blockHash = none → hasField (buildRawTxParams p) "blockhash" = false) := by
  intro s p resp hs
  have hn : s.rpc.isNone = false := by
    cases h : s.rpc
    · simp [h] at hs
    · simp [h]
  obtain ⟨txId, verbose, blockHash⟩ := p
  refine ⟨?_, ?_, ?_, ?_, ?_⟩
  · cases resp <;> simp [getRawTransaction, transportCall, hn]
  · rcases blockHash with _ | h
    · rfl
    · by_cases hh : h = ""
      · subst hh; rfl
      · simp [buildRawTxParams, getField, hh, List.lookup]
  · rcases blockHash with _ | h
    · rfl
    · by_cases hh : h = ""
      · subst hh; rfl
      · simp [buildRawTxParams, getField, hh, List.lookup]
  · rintro h rfl
    by_cases hh : h = ""
    · subst hh
      refine ⟨rfl, fun hc => absurd rfl hc⟩
    · constructor
      · simp [buildRawTxParams, hasField, hh, List.lookup]
      · intro _
        simp [buildRawTxParams, getField, hh, List.lookup]
  · rintro rfl
    rfl

/-- Witness for C8 (amended) at a concrete input: a non-empty supplied
block hash appears in the sent parameter object. -/
theorem c8_raw_tx_param_shape_witness :
    readyState.rpc.isSome = true ∧
    (getRawTransaction readyState
        { txId := "ab12", verbose := some .NONE, blockHash := some "00ff" }
        (.ok .vnull)).sentParams =
      some (buildRawTxParams
        { txId := "ab12", verbose := some .NONE, blockHash := some "00ff" }) ∧
    getField (buildRawTxParams
        { txId := "ab12", verbose := some .NONE, blockHash := some "00ff" }) "txid" =
      .vstr "ab12" :=
  ⟨rfl,
    (c8_raw_tx_param_shape readyState
      { txId := "ab12", verbose := some .NONE, blockHash := some "00ff" } (.ok .vnull) rfl).1,
    (c8_raw_tx_param_shape readyState
      { txId := "ab12", verbose := some .NONE, blockHash := some "00ff" } (.ok .vnull) rfl).2.1⟩

/-- C9: the seven string-returning swallowing methods collapse a
successful empty-string response to null, and also resolve with null when
the transport fails — the two cases are observationally identical for the
caller. -/
theorem c9_empty_string_collapses_to_null :
    ∀ (s : RPCState) (e : JsErr), s.rpc.isSome = true →
      ((getBestBlockHash s (.ok (.vstr ""))).outcome = .ret .vnull ∧
        (getBestBlockHash s (.error e)).outcome = .ret .vnull) ∧
      (∀ b, (getBlockAsHexString s b (.ok (.vstr ""))).outcome = .ret .vnull ∧
        (getBlockAsHexString s b (.error e)).outcome = .ret .vnull) ∧
      (∀ h, (getBlockHash s h (.ok (.vstr ""))).outcome = .ret .vnull ∧
        (getBlockHash s h (.error e)).outcome = .ret .vnull) ∧
      (∀ l, (getNewAddress s l (.ok (.vstr ""))).outcome = .ret .vnull ∧
        (getNewAddress s l (.error e)).outcome = .ret .vnull) ∧
      (∀ a, (dumpPrivateKey s a (.ok (.vstr ""))).outcome = .ret .vnull ∧
        (dumpPrivateKey s a (.error e)).outcome = .ret .vnull) ∧
      (∀ ts bh, (getTxOutProof s ts bh (.ok (.vstr ""))).outcome = .ret .vnull ∧
        (getTxOutProof s ts bh (.error e)).outcome = .ret .vnull) ∧
      (∀ ps, (joinPSBTs s ps (.ok (.vstr ""))).outcome = .ret .vnull ∧
        (joinPSBTs s ps (.error e)).outcome = .ret .vnull) := by
  intro s e hs
  have hn : s.rpc.isNone = false := by
    cases h : s.rpc
    · simp [h] at hs
    · simp [h]
  refine ⟨⟨?_, ?_⟩, fun b => ⟨?_, ?_⟩, fun h => ⟨?_, ?_⟩, fun l => ⟨?_, ?_⟩, fun a => ⟨?_, ?_⟩,
    fun ts bh => ⟨?_, ?_⟩, fun ps => ⟨?_, ?_⟩⟩ <;>
    simp [getBestBlockHash, getBlockAsHexString, getBlockHash, getNewAddress, dumpPrivateKey,
      getTxOutProof, joinPSBTs, transportCall, jsOrNull, jsNullishNull, truthy,
      looseEqEmptyStr, hn]

/-- Witness for C9 at a concrete input: `getBestBlockHash` yields null
both for an empty-string success and for a swallowed failure. -/
theorem c9_empty_string_collapses_to_null_witness :
    readyState.rpc.isSome = true ∧
    ((getBestBlockHash readyState (.ok (.vstr ""))).outcome = .ret .vnull ∧
      (getBestBlockHash readyState (.error bang)).outcome = .ret .vnull) :=
  ⟨rfl, (c9_empty_string_collapses_to_null readyState bang rfl).1⟩

/-- C10: a first `init` whose connectivity probe (`getChainInfo`) rejects
catches the failure, logs it and resolves with the transport handle set;
when the probe instead resolves with a falsy chain info, the process is
terminated with exit code 1; a truthy probe resolves normally. -/
theorem c10_init_resilience :
    ∀ (s : RPCState) (cfg : RPCConfig), s.rpc = none →
      (∀ e, (init s cfg (.error e)).outcome = .ret .vundefined ∧
        (init s cfg (.error e)).state.rpc.isSome = true ∧
        (init s cfg (.error e)).errors =
          ["RPC errored. Please check your configuration. " ++ errMessage e]) ∧
      (∀ v, truthy v = false → (init s cfg (.ok v)).outcome = .exited 1 ∧
        (init s cfg (.ok v)).errors = ["RPC errored. Please check your configuration."]) ∧
      (∀ v, truthy v = true → (init s cfg (.ok v)).outcome = .ret .vundefined) := by
  intro s cfg h
  have hs : s.rpc.isSome = false := by simp [h]
  refine ⟨fun e => ?_, fun v hv => ?_, fun v hv => ?_⟩ <;>
    simp [init, testRPC, getChainInfo, hs, *]

/-- Witness for C10 at a concrete input: a rejecting probe still leaves
`init` resolving with the handle set and the failure logged. -/
theorem c10_init_resilience_witness :
    mkBitcoinRPCDefault.rpc = none ∧
    ((init mkBitcoinRPCDefault cfgSample (.error bang)).outcome = .ret .vundefined ∧
      (init mkBitcoinRPCDefault cfgSample (.error bang)).state.rpc.isSome = true ∧
      (init mkBitcoinRPCDefault cfgSample (.error bang)).errors =
        ["RPC errored. Please check your configuration. " ++ errMessage bang]) :=
  ⟨rfl, (c10_init_resilience mkBitcoinRPCDefault cfgSample rfl).1 bang⟩

end BitcoinRPC
